import Mathlib

/-!
Verification development for the CredVerse credential platform.

The definitions below are a shallow embedding of the platform's JavaScript
route handlers (`server/routes/verification.js`, `server/routes/credentials.js`),
its IPFS service (`services/ipfsService.js`), and the Solidity credential
registry (`contracts/CredentialRegistry.sol`).  External collaborators
(blockchain RPC, IPFS client, Veramo proof agent) are modelled by explicit
outcome parameters; machine-level details (addresses, bytes32 ids) are
modelled by `Nat` and `String` as documented at each definition.
-/

namespace CredVerse

/-- Truthiness of an optional JavaScript string value: `undefined` and the
empty string are falsy, every other string is truthy. -/
def jsTruthyStr : Option String → Bool
  | none => false
  | some s => s != ""

/-- JavaScript `x || d` on an optional number: `undefined` and `0` are falsy
and select the default. -/
def jsOrNat : Option Nat → Nat → Nat
  | none, d => d
  | some n, d => if n = 0 then d else n

/-- Does the second character list occur at the head of the first? -/
def leadMatch : List Char → List Char → Bool
  | [], _ => true
  | _ :: _, [] => false
  | a :: as, b :: bs => a == b && leadMatch as bs

/-- JavaScript `s.includes(pat)`: substring occurrence test. -/
def strContains (s pat : String) : Bool :=
  (List.range (s.toList.length + 1)).any fun i => leadMatch pat.toList (s.toList.drop i)

/-! ## Verification routes (`server/routes/verification.js`) -/

/-- The data the GET handler reads from the chain when the lookup succeeds:
the tuple returned by `registry.verifyCredential` plus the record returned by
`registry.getCredential` (both calls sit in one `try` block). -/
structure ChainRecord where
  isValid : Bool
  isExpired : Bool
  isRevoked : Bool
  issuer : String
  recipient : String
  credentialType : String
  issuedAt : Nat
  expiresAt : Nat
  ipfsHash : String
deriving DecidableEq

/-- The `blockchain` sub-result of a verification result. -/
structure BlockchainSub where
  verified : Bool
  error : Option String
deriving DecidableEq

/-- The `ipfs` sub-result of a verification result.  Retrieved metadata is the
parsed JSON document, modelled as an opaque string. -/
structure IpfsSub where
  verified : Bool
  metadata : Option String
  error : Option String
deriving DecidableEq

/-- The `veramo` sub-result of a verification result; the GET handler
initialises it and never updates it. -/
structure VeramoSub where
  verified : Bool
  errors : List String
deriving DecidableEq

/-- The `verificationResult` object assembled by `GET /api/verify/:credentialId`.
Date formatting is elided: timestamps stay numeric. -/
structure VerificationResult where
  credentialId : String
  isValid : Bool
  isExpired : Bool
  isRevoked : Bool
  issuer : Option String
  recipient : Option String
  credentialType : Option String
  issuedAt : Option Nat
  expiresAt : Option Nat
  blockchain : BlockchainSub
  ipfs : IpfsSub
  veramo : VeramoSub
deriving DecidableEq

/-- The initial `verificationResult` literal of the GET handler: every flag
false, every field null. -/
def initResult (credentialId : String) : VerificationResult where
  credentialId := credentialId
  isValid := false
  isExpired := false
  isRevoked := false
  issuer := none
  recipient := none
  credentialType := none
  issuedAt := none
  expiresAt := none
  blockchain := { verified := false, error := none }
  ipfs := { verified := false, metadata := none, error := none }
  veramo := { verified := false, errors := [] }

/-- The `verificationResult` after a successful blockchain lookup, before the
IPFS step: blockchain fields copied in, `expiresAt` kept only when positive. -/
def blockchainOkResult (credentialId : String) (rec : ChainRecord) : VerificationResult :=
  { initResult credentialId with
    isValid := rec.isValid
    isExpired := rec.isExpired
    isRevoked := rec.isRevoked
    issuer := some rec.issuer
    recipient := some rec.recipient
    credentialType := some rec.credentialType
    issuedAt := some rec.issuedAt
    expiresAt := if rec.expiresAt > 0 then some rec.expiresAt else none
    blockchain := { verified := true, error := none } }

/-- Responses of `GET /api/verify/:credentialId`: HTTP 400, HTTP 404 (the
response embeds the partially filled verification result), or HTTP 200 with
`success: true` carrying the result and `overallValid`. -/
inductive VerifyByIdResponse where
  | badRequest (error : String)
  | notFound (error : String) (result : VerificationResult)
  | ok (result : VerificationResult) (overallValid : Bool)
deriving DecidableEq

/-- The `overallValid` field of a 200 response, if the response is a 200. -/
def VerifyByIdResponse.overall : VerifyByIdResponse → Option Bool
  | .ok _ b => some b
  | _ => none

/-- Is the response an HTTP 200 `success: true` verdict? -/
def VerifyByIdResponse.isOk : VerifyByIdResponse → Bool
  | .ok _ _ => true
  | _ => false

/-- `GET /api/verify/:credentialId`.
`registryConfigured` models `REGISTRY_ADDRESS` being set; `lookup` is the
outcome of the two chain calls (`.error msg` when either throws); `fetch` is
the outcome of `ipfsService.getCredentialMetadata` per content hash.
Mirrors the handler: a lookup error whose message contains
"Credential does not exist" returns 404; any other lookup error, and the
unconfigured-registry case, record `blockchain.error` and fall through to the
200 response; an IPFS failure is caught and recorded in `ipfs.error`;
`overallValid = isValid && !isExpired && !isRevoked` over the result fields. -/
def verifyById (registryConfigured : Bool) (lookup : Except String ChainRecord)
    (credentialId : String) (includeMetadata : Bool)
    (fetch : String → Except String String) : VerifyByIdResponse :=
  if credentialId = "" then .badRequest "Credential ID is required"
  else if registryConfigured then
    match lookup with
    | .ok rec =>
      let r1 := blockchainOkResult credentialId rec
      let r2 :=
        if includeMetadata && (rec.ipfsHash != "") then
          match fetch rec.ipfsHash with
          | .ok m => { r1 with ipfs := { verified := true, metadata := some m, error := none } }
          | .error e => { r1 with ipfs := { verified := false, metadata := none, error := some e } }
        else r1
      .ok r2 (r2.isValid && !r2.isExpired && !r2.isRevoked)
    | .error msg =>
      let r1 := { initResult credentialId with
                  blockchain := { verified := false, error := some msg } }
      if strContains msg "Credential does not exist" then
        .notFound "Credential not found" r1
      else
        .ok r1 (r1.isValid && !r1.isExpired && !r1.isRevoked)
  else
    let r1 := { initResult credentialId with
                blockchain := { verified := false, error := some "Registry contract not deployed" } }
    .ok r1 (r1.isValid && !r1.isExpired && !r1.isRevoked)

/-- The `blockchainVerification` object of `POST /api/verify/credential`.
In the handler's catch branch only `verified` and `error` are assigned; the
remaining fields are then `undefined`, which is falsy wherever the handler
reads them, so they are modelled as `false`. -/
structure BlockchainVerification where
  verified : Bool
  isValid : Bool
  isExpired : Bool
  isRevoked : Bool
  error : Option String
deriving DecidableEq

/-- Outcome of `registry.verifyCredential` for the document route. -/
inductive ChainVerifyOutcome where
  | ok (isValid isExpired isRevoked : Bool)
  | error (msg : String)
deriving DecidableEq

/-- The verdict assembled by `POST /api/verify/credential`. -/
structure DocVerifyResult where
  veramoVerified : Bool
  blockchain : Option BlockchainVerification
  overallValid : Bool
deriving DecidableEq

/-- `POST /api/verify/credential` (verdict part).
`veramoVerified` is the proof-service outcome on the supplied document,
`credId` the document's `id` field, `registryConfigured` models
`REGISTRY_ADDRESS`, `chain` the outcome of `registry.verifyCredential`.
Mirrors the handler: the blockchain cross-check runs only when the id is
truthy and the registry is configured; a throwing chain call is caught into a
`verified: false` object (whose `isValid` is `undefined`, i.e. falsy); then
`overallValid = veramoResult.verified && (!blockchainVerification ||
blockchainVerification.isValid)`. -/
def verifyCredentialDoc (veramoVerified : Bool) (credId : Option String)
    (registryConfigured : Bool) (chain : ChainVerifyOutcome) : DocVerifyResult :=
  let bv : Option BlockchainVerification :=
    if jsTruthyStr credId && registryConfigured then
      match chain with
      | .ok v e r =>
        some { verified := true, isValid := v, isExpired := e, isRevoked := r, error := none }
      | .error m =>
        some { verified := false, isValid := false, isExpired := false, isRevoked := false,
               error := some m }
    else none
  { veramoVerified := veramoVerified
    blockchain := bv
    overallValid := veramoVerified && (match bv with | none => true | some b => b.isValid) }

/-! ## IPFS service (`services/ipfsService.js`) -/

namespace Ipfs

/-- The content persisted behind the IPFS client: each CID maps to the chunk
stream `client.cat` would deliver for it (each chunk is a byte list). -/
structure Store where
  entries : List (String × List (List Nat))
deriving DecidableEq

/-- `client.cat cid` as a data source: the chunk stream when the content is
reachable, `none` when it is not (in which case the real client throws). -/
def cat (st : Store) (cid : String) : Option (List (List Nat)) :=
  List.lookup cid st.entries

/-- Options object accepted by `getFile`. -/
structure GetOptions where
  timeout : Option Nat
  maxSize : Option Nat
deriving DecidableEq

/-- `getFile` options defaults: `options.timeout || 30000` is the timeout
handed to `client.cat`. -/
def getFileTimeout (options : GetOptions) : Nat :=
  jsOrNat options.timeout 30000

/-- `getCredentialMetadata` calls `client.cat(cid)` with no options object:
no timeout is ever passed on that read path. -/
def getCredentialMetadataTimeout : Option Nat := none

/-- The default size cap of `getFile`: 50MB. -/
def defaultMaxSize : Nat := 50 * 1024 * 1024

/-- Outcomes of `getFile`; every constructor except `ok` models a thrown
(re-mapped) error, so no buffer reaches the caller on those paths. -/
inductive GetFileResult where
  | ok (buffer : List Nat)
  | tooLarge (maxSize : Nat)
  | notFound
  | clientError (msg : String)
deriving DecidableEq

/-- The streaming loop of `getFile`: accumulate `totalSize += chunk.length`,
throw (`none`) as soon as the accumulated size exceeds the cap, otherwise
concatenate the chunks. -/
def readChunks (maxSize : Nat) : Nat → List (List Nat) → Option (List Nat)
  | _, [] => some []
  | total, c :: cs =>
    if total + c.length > maxSize then none
    else (readChunks maxSize (total + c.length) cs).map fun rest => c ++ rest

/-- `IPFSService.getFile(cid, options)`: guards the client and the CID, streams
with `timeout: options.timeout || 30000`, enforces
`maxSize = options.maxSize || 50MB` incrementally while accumulating chunks,
and returns the concatenated buffer only when the whole stream fit the cap. -/
def getFile (clientReady : Bool) (st : Store) (cid : String)
    (options : GetOptions) : GetFileResult :=
  if !clientReady then .clientError "IPFS client not initialized"
  else if cid = "" then .clientError "CID is required"
  else
    match cat st cid with
    | none => .notFound
    | some chunks =>
      match readChunks (jsOrNat options.maxSize defaultMaxSize) 0 chunks with
      | none => .tooLarge (jsOrNat options.maxSize defaultMaxSize)
      | some buffer => .ok buffer

/-- Outcome of `getCredentialMetadata`. -/
inductive MetadataResult where
  | ok (metadata : String)
  | error (msg : String)
deriving DecidableEq

/-- `IPFSService.getCredentialMetadata(cid)`: iterates the raw `client.cat(cid)`
stream directly — with no timeout option and no size accounting — concatenates
every chunk and parses the bytes as JSON.  `parse` models `JSON.parse`
(returning `none` when it throws); the parsed document is kept opaque. -/
def getCredentialMetadata (clientReady : Bool) (st : Store)
    (parse : List Nat → Option String) (cid : String) : MetadataResult :=
  if !clientReady then .error "IPFS client not initialized"
  else
    match cat st cid with
    | none => .error "IPFS retrieval failed"
    | some chunks =>
      match parse chunks.flatten with
      | some m => .ok m
      | none => .error "IPFS retrieval failed"

/-- `IPFSService.fileExists(cid)`: `getFile(cid, { maxSize: 1 })` wrapped in
try/catch — true exactly when that capped read returns a buffer. -/
def fileExists (clientReady : Bool) (st : Store) (cid : String) : Bool :=
  match getFile clientReady st cid { timeout := none, maxSize := some 1 } with
  | .ok _ => true
  | _ => false

end Ipfs

/-! ## Credential issuance (`server/routes/credentials.js`) -/

namespace Issue

/-- The request body of `POST /api/credentials/issue`; absent fields are
`none`, and JavaScript truthiness governs validation. -/
structure IssueRequest where
  studentName : Option String
  studentEmail : Option String
  courseName : Option String
  credentialType : Option String
  graduationDate : Option String
  grade : Option String
  expirationDate : Option String
  studentWallet : Option String
  evidence : Option (List String)
deriving DecidableEq

/-- The `credentialData` object assembled by the handler. -/
structure CredentialData where
  credentialId : String
  issuerDID : String
  subjectDID : String
  credentialType : Option String
  studentName : Option String
  studentEmail : Option String
  courseName : Option String
  institutionName : String
  graduationDate : Option String
  grade : Option String
  expirationDate : Option String
  evidence : List String
deriving DecidableEq

/-- The credential metadata document built by
`ipfsService.createCredentialMetadata` (pure computation; nested objects are
flattened into prefixed fields, `x || null` becomes the option itself,
`x || default` uses the default on `none`). -/
structure CredMetadata where
  credentialId : String
  credentialType : Option String
  issuerName : String
  issuerDid : String
  issuerLogo : Option String
  subjectName : Option String
  subjectEmail : Option String
  subjectDid : String
  achievementName : Option String
  achievementDescription : Option String
  achievementType : Option String
  achievementGrade : Option String
  achievementCompletionDate : Option String
  evidence : List String
  schemaId : String
  displayBackgroundColor : String
  displayTextColor : String
  displayLogo : Option String
deriving DecidableEq

/-- `ipfsService.createCredentialMetadata(credentialData)`. -/
def createCredentialMetadata (d : CredentialData) : CredMetadata where
  credentialId := d.credentialId
  credentialType := d.credentialType
  issuerName := d.institutionName
  issuerDid := d.issuerDID
  issuerLogo := none
  subjectName := d.studentName
  subjectEmail := d.studentEmail
  subjectDid := d.subjectDID
  achievementName := d.courseName
  achievementDescription := none
  achievementType := d.credentialType
  achievementGrade := d.grade
  achievementCompletionDate := d.graduationDate
  evidence := d.evidence
  schemaId := "https://credverse.io/schemas/education-credential.json"
  displayBackgroundColor := "#ffffff"
  displayTextColor := "#000000"
  displayLogo := none

/-- A signed verifiable credential as produced by the Veramo agent (opaque
external artifact, carried by its JWT payload). -/
structure Vc where
  jwt : String
deriving DecidableEq

/-- A document written to IPFS by the issue handler: the bare credential
metadata, or the metadata together with the signed VC (`vcMetadata`). -/
inductive StoredDoc where
  | meta (m : CredMetadata)
  | metaWithVc (m : CredMetadata) (vc : Vc)
deriving DecidableEq

/-- A transaction receipt from `contractService.issueCredential`. -/
structure TxReceipt where
  transactionHash : String
  blockNumber : Nat
  gasUsed : Nat
  credentialHash : String
deriving DecidableEq

/-- Side-effecting collaborator state threaded through the handler: DIDs
created in the Veramo store, documents pinned to IPFS, and credential ids
registered on chain. -/
structure WorldState where
  dids : List String
  ipfs : List (String × StoredDoc)
  chainWrites : List String
deriving DecidableEq

/-- One run's collaborator outcomes: the fresh uuid, the outcome of
`createStudentDID` per email, the CID granted by `uploadCredentialMetadata`
per document (`none` models a throw), the Veramo signing outcome, whether
`contractService.isReady()`, and the outcome of the chain registration. -/
structure IssueEnv where
  uuid : String
  didOf : String → Option String
  putCid : StoredDoc → Option String
  vcOf : CredentialData → Option Vc
  chainReady : Bool
  chainWrite : Option TxReceipt

/-- The QR payload built by the handler. -/
structure QrData where
  credentialId : String
  verifyUrl : String
  ipfsHash : String
deriving DecidableEq

/-- The 201 response body of a successful issuance. -/
structure IssueReceipt where
  credentialId : String
  verifiableCredential : Vc
  metadataCid : String
  vcCid : String
  qr : QrData
  blockchain : Option TxReceipt
  studentDID : String
  issuerDID : String
deriving DecidableEq

/-- Responses of `POST /api/credentials/issue`: HTTP 400 validation failure,
HTTP 500 (a throw reaching `next(error)`), or HTTP 201 with the receipt. -/
inductive IssueResponse where
  | badRequest (error : String)
  | serverError (error : String)
  | created (receipt : IssueReceipt)
deriving DecidableEq

/-- The hard-coded institution mock used by the handler. -/
def institutionName : String := "Sample University"

/-- The hard-coded institution DID used by the handler. -/
def institutionDid : String := "did:ethr:polygon:0x123..."

/-- `POST /api/credentials/issue`.  Faithful step order: validate required
fields (abort with 400 before any collaborator call), create the student DID,
assemble metadata (pure), upload metadata to IPFS, sign the VC, upload the
`vcMetadata` document, then attempt the chain registration — whose failure is
caught and ignored so the 201 receipt is still returned with
`blockchain: blockchainResult || null`.  Failures of the earlier collaborator
calls throw and surface as 500 with all side effects up to that point kept. -/
def issue (env : IssueEnv) (req : IssueRequest) (st : WorldState) :
    IssueResponse × WorldState :=
  if !(jsTruthyStr req.studentName && jsTruthyStr req.studentEmail &&
       jsTruthyStr req.courseName && jsTruthyStr req.credentialType) then
    (.badRequest "Missing required fields: studentName, studentEmail, courseName, credentialType",
     st)
  else
    let credentialId := "cred-" ++ env.uuid
    match env.didOf (req.studentEmail.getD "") with
    | none => (.serverError "Failed to create DID", st)
    | some studentDid =>
      let st1 := { st with dids := st.dids ++ [studentDid] }
      let credentialData : CredentialData :=
        { credentialId := credentialId
          issuerDID := institutionDid
          subjectDID := studentDid
          credentialType := req.credentialType
          studentName := req.studentName
          studentEmail := req.studentEmail
          courseName := req.courseName
          institutionName := institutionName
          graduationDate := req.graduationDate
          grade := req.grade
          expirationDate := req.expirationDate
          evidence := req.evidence.getD [] }
      let metadata := createCredentialMetadata credentialData
      match env.putCid (.meta metadata) with
      | none => (.serverError "IPFS upload failed", st1)
      | some metadataCid =>
        let st2 := { st1 with ipfs := (metadataCid, .meta metadata) :: st1.ipfs }
        match env.vcOf credentialData with
        | none => (.serverError "Failed to issue credential", st2)
        | some vc =>
          match env.putCid (.metaWithVc metadata vc) with
          | none => (.serverError "IPFS upload failed", st2)
          | some vcCid =>
            let st3 := { st2 with ipfs := (vcCid, .metaWithVc metadata vc) :: st2.ipfs }
            let blockchainResult : Option TxReceipt :=
              if env.chainReady then env.chainWrite else none
            let st4 :=
              if env.chainReady && env.chainWrite.isSome then
                { st3 with chainWrites := st3.chainWrites ++ [credentialId] }
              else st3
            let qr : QrData :=
              { credentialId := credentialId
                verifyUrl := "/api/verify/" ++ credentialId
                ipfsHash := metadataCid }
            (.created
              { credentialId := credentialId
                verifiableCredential := vc
                metadataCid := metadataCid
                vcCid := vcCid
                qr := qr
                blockchain := blockchainResult
                studentDID := studentDid
                issuerDID := institutionDid },
             st4)

/-- Look a document up in the content store (`get` by CID).  Writes are map
inserts, so the most recent binding of a CID wins. -/
def getDoc (st : WorldState) (cid : String) : Option StoredDoc :=
  List.lookup cid st.ipfs

/-- One entry of the batch request's `students` array. -/
structure StudentEntry where
  name : Option String
  email : Option String
  courseName : Option String
  credentialType : Option String
deriving DecidableEq

/-- A `results` entry of the batch response. -/
structure BatchItemSuccess where
  studentEmail : Option String
  credentialId : String
  status : String
deriving DecidableEq

/-- An `errors` entry of the batch response. -/
structure BatchItemError where
  studentEmail : Option String
  error : String
deriving DecidableEq

/-- Responses of `POST /api/credentials/batch-issue`. -/
inductive BatchResponse where
  | badRequest (error : String)
  | ok (totalProcessed successful failed : Nat)
       (results : List BatchItemSuccess) (errors : List BatchItemError)
deriving DecidableEq

/-- `POST /api/credentials/batch-issue`.  The handler's loop body only
generates a credential id and pushes a `status: 'success'` record — the
commented-out per-entry issue logic is absent, the body cannot throw, and the
`catch` that would feed `errors` is unreachable, so `errors` stays empty.
`uuidOf` supplies the `uuidv4()` value of each iteration. -/
def batchIssue (uuidOf : Nat → String) (students : List StudentEntry) :
    BatchResponse :=
  if students.isEmpty then .badRequest "Students array is required"
  else
    let results := students.enum.map fun p =>
      ({ studentEmail := p.2.email
         credentialId := "cred-" ++ uuidOf p.1
         status := "success" } : BatchItemSuccess)
    let errors : List BatchItemError := []
    .ok students.length results.length errors.length results errors

end Issue

/-! ## On-chain registry (`contracts/CredentialRegistry.sol`)

Addresses are modelled as `Nat` (`0` is `address(0)`); `bytes32` credential
ids as `String` (`""` is `bytes32(0)`); `block.timestamp` is an explicit
argument of the timestamp-reading operations.  A reverted call leaves the
state unchanged. -/

namespace Registry

/-- The on-chain `Credential` struct. -/
structure Credential where
  issuer : Nat
  subject : Nat
  ipfsHash : String
  issuedAt : Nat
  expiresAt : Nat
  revoked : Bool
  revokedReason : String
  credentialType : String
deriving DecidableEq

/-- The on-chain `Institution` struct; the mapping default has all fields
zeroed, which the contract detects through `name` being empty. -/
structure Institution where
  name : String
  did : String
  verified : Bool
  active : Bool
  registeredAt : Nat
deriving DecidableEq

/-- The zero value of the `credentials` mapping (reads of it are always
guarded by the existence `require`, mirroring Solidity storage access). -/
def emptyCredential : Credential where
  issuer := 0
  subject := 0
  ipfsHash := ""
  issuedAt := 0
  expiresAt := 0
  revoked := false
  revokedReason := ""
  credentialType := ""

/-- The zero value of the `institutions` mapping. -/
def emptyInstitution : Institution where
  name := ""
  did := ""
  verified := false
  active := false
  registeredAt := 0

/-- Contract storage.  Mappings are association lists; the redundant
`credentialExists` mapping of the source is always kept in sync with
`credentials` and is represented by key membership in `credentials`. -/
structure State where
  credentials : List (String × Credential)
  institutions : List (Nat × Institution)
  issuerCredentials : List (Nat × List String)
  subjectCredentials : List (Nat × List String)
  adminRole : List Nat
  issuerRole : List Nat
  paused : Bool
  totalCredentials : Nat
  totalInstitutions : Nat
  totalRevoked : Nat
deriving DecidableEq

/-- Association-list lookup keyed on the first component. -/
def alookup {α : Type} (k : String) : List (String × α) → Option α
  | [] => none
  | (k2, v) :: rest => if k = k2 then some v else alookup k rest

/-- Read of the `institutions` mapping, yielding the zero struct for
unregistered addresses. -/
def instOf (s : State) (a : Nat) : Institution :=
  (List.lookup a s.institutions).getD emptyInstitution

/-- Mapping assignment `institutions[a] = i`. -/
def setInst (a : Nat) (i : Institution) : List (Nat × Institution) → List (Nat × Institution)
  | [] => [(a, i)]
  | (b, j) :: rest => if a = b then (a, i) :: rest else (b, j) :: setInst a i rest

/-- `array.push(x)` on a mapping of dynamic arrays. -/
def pushAt (a : Nat) (x : String) : List (Nat × List String) → List (Nat × List String)
  | [] => [(a, [x])]
  | (b, xs) :: rest => if a = b then (b, xs ++ [x]) :: rest else (b, xs) :: pushAt a x rest

/-- `_grantRole`: idempotent role grant. -/
def grantRole (a : Nat) (role : List Nat) : List Nat :=
  if a ∈ role then role else a :: role

/-- `_revokeRole`. -/
def revokeRole (a : Nat) (role : List Nat) : List Nat :=
  role.filter fun b => b ≠ a

/-- Storage write of `revokeCredential`: set `revoked` and `revokedReason` on
the entry with the given key, leaving every other entry untouched. -/
def markRevoked (vcId reason : String) : List (String × Credential) → List (String × Credential)
  | [] => []
  | (k, cr) :: rest =>
    (k, if k = vcId then { cr with revoked := true, revokedReason := reason } else cr) ::
      markRevoked vcId reason rest

/-- External calls of the contract, with `msg.sender` and (where read)
`block.timestamp` made explicit. -/
inductive Op where
  | registerInstitution (sender : Nat) (name did : String) (now : Nat)
  | verifyInstitution (sender inst : Nat) (verified : Bool)
  | issueCredential (sender : Nat) (vcId : String) (subject : Nat)
      (ipfsHash credentialType : String) (expiresAt now : Nat)
  | revokeCredential (sender : Nat) (vcId reason : String)
  | deactivateInstitution (sender inst : Nat)
  | pause (sender : Nat)
  | unpause (sender : Nat)
deriving DecidableEq

/-- Is this call a `revokeCredential` targeting the given credential id? -/
def isRevokeOf (op : Op) (vcId : String) : Bool :=
  match op with
  | .revokeCredential _ v _ => v == vcId
  | _ => false

/-- One external call; `Except.error` is a revert carrying the revert
string (modifier checks run before the body's `require`s, in source order). -/
def step (s : State) : Op → Except String State
  | .registerInstitution sender name did now =>
    if name = "" then .error "Institution name required"
    else if did = "" then .error "DID required"
    else if (instOf s sender).name ≠ "" then .error "Institution already registered"
    else .ok { s with
      institutions := setInst sender
        { name := name, did := did, verified := false, active := true, registeredAt := now }
        s.institutions
      totalInstitutions := s.totalInstitutions + 1 }
  | .verifyInstitution sender inst verified =>
    if sender ∉ s.adminRole then .error "AccessControl: missing ADMIN_ROLE"
    else if (instOf s inst).name = "" then .error "Institution not registered"
    else .ok { s with
      institutions := setInst inst { instOf s inst with verified := verified } s.institutions
      issuerRole := if verified then grantRole inst s.issuerRole
                    else revokeRole inst s.issuerRole }
  | .issueCredential sender vcId subject ipfsHash credentialType expiresAt now =>
    if sender ∉ s.issuerRole then .error "AccessControl: missing ISSUER_ROLE"
    else if s.paused then .error "Pausable: paused"
    else if vcId = "" then .error "Invalid credential ID"
    else if ipfsHash = "" then .error "IPFS hash required"
    else if credentialType = "" then .error "Credential type required"
    else if (alookup vcId s.credentials).isSome then .error "Credential already exists"
    else if !(instOf s sender).verified then .error "Institution not verified"
    else if !(instOf s sender).active then .error "Institution not active"
    else if expiresAt > 0 ∧ ¬ expiresAt > now then
      .error "Expiration date must be in the future"
    else .ok { s with
      credentials := (vcId,
        { issuer := sender, subject := subject, ipfsHash := ipfsHash, issuedAt := now
          expiresAt := expiresAt, revoked := false, revokedReason := ""
          credentialType := credentialType }) :: s.credentials
      issuerCredentials := pushAt sender vcId s.issuerCredentials
      subjectCredentials := if subject ≠ 0 then pushAt subject vcId s.subjectCredentials
                            else s.subjectCredentials
      totalCredentials := s.totalCredentials + 1 }
  | .revokeCredential sender vcId reason =>
    if s.paused then .error "Pausable: paused"
    else if !(alookup vcId s.credentials).isSome then .error "Credential does not exist"
    else if reason = "" then .error "Revocation reason required"
    else if ((alookup vcId s.credentials).getD emptyCredential).issuer ≠ sender then
      .error "Only issuer can revoke"
    else if ((alookup vcId s.credentials).getD emptyCredential).revoked then
      .error "Credential already revoked"
    else .ok { s with
      credentials := markRevoked vcId reason s.credentials
      totalRevoked := s.totalRevoked + 1 }
  | .deactivateInstitution sender inst =>
    if sender ∉ s.adminRole then .error "AccessControl: missing ADMIN_ROLE"
    else if (instOf s inst).name = "" then .error "Institution not registered"
    else .ok { s with
      institutions := setInst inst { instOf s inst with active := false } s.institutions
      issuerRole := revokeRole inst s.issuerRole }
  | .pause sender =>
    if sender ∉ s.adminRole then .error "AccessControl: missing ADMIN_ROLE"
    else if s.paused then .error "Pausable: paused"
    else .ok { s with paused := true }
  | .unpause sender =>
    if sender ∉ s.adminRole then .error "AccessControl: missing ADMIN_ROLE"
    else if !s.paused then .error "Pausable: not paused"
    else .ok { s with paused := false }

/-- A transaction: a reverted call leaves the chain state unchanged. -/
def exec (s : State) (op : Op) : State :=
  match step s op with
  | .ok s2 => s2
  | .error _ => s

/-- Execute a sequence of external calls. -/
def run (s : State) : List Op → State
  | [] => s
  | op :: ops => run (exec s op) ops

/-- `isValid(vcId)` view: validity tuple of an existing credential. -/
def isValidView (s : State) (vcId : String) (now : Nat) :
    Except String (Bool × Bool × Bool) :=
  match alookup vcId s.credentials with
  | none => .error "Credential does not exist"
  | some cred =>
    let inst := instOf s cred.issuer
    let isRevoked := cred.revoked
    let isExpired := cred.expiresAt > 0 && now ≥ cred.expiresAt
    .ok (!isRevoked && !isExpired && inst.verified && inst.active, isExpired, isRevoked)

end Registry

/-! ## Theorems -/

/-- C1: for every credential id whose on-chain lookup succeeds,
`GET /api/verify/:credentialId` returns a 200 verdict whose `overallValid`
equals `blockchain.isValid AND NOT blockchain.isExpired AND NOT
blockchain.isRevoked`; the content-store fetch outcome and the (never
updated) proof sub-result are universally quantified and absent from the
right-hand side, so they can never flip `overallValid`. -/
theorem C1_overallValid_from_blockchain_only
    (rec : ChainRecord) (cid : String) (inc : Bool)
    (fetch : String → Except String String) (h : cid ≠ "") :
    (verifyById true (.ok rec) cid inc fetch).overall =
      some (rec.isValid && !rec.isExpired && !rec.isRevoked) := by
  unfold verifyById
  rw [if_neg h]
  rcases hf : fetch rec.ipfsHash with e | m <;>
    by_cases hic : inc = true ∧ ¬rec.ipfsHash = "" <;>
      simp [hf, hic, VerifyByIdResponse.overall, blockchainOkResult]

/-- C1 witness: a concrete valid credential record evaluated through the
route. -/
theorem C1_overallValid_from_blockchain_only_witness :
    (verifyById true
      (.ok { isValid := true, isExpired := false, isRevoked := true,
             issuer := "0xabc", recipient := "0xdef", credentialType := "Diploma",
             issuedAt := 1700000000, expiresAt := 0, ipfsHash := "QmX" })
      "cred-1" true fun _ => .error "ipfs down").overall =
      some (true && !false && !true) :=
  C1_overallValid_from_blockchain_only _ "cred-1" true _ (by decide)

/-- C2 counterexample: the claim demands that an unknown credential never
yields a success verdict, in particular when the registry is unconfigured or
the chain is unreachable.  But with the registry unconfigured (first
conjunct), and likewise with a configured registry whose RPC call fails with
a network error (second conjunct), the handler returns the HTTP 200
`success: true` verdict with every validity field false — exactly the
"checked and invalid" masquerade the claim rules out; no `NotFound` is
produced. -/
theorem C2_counterexample :
    (verifyById false (.error "Credential does not exist") "cred-unknown" true
        fun _ => .error "unreachable") =
      .ok { initResult "cred-unknown" with
            blockchain := { verified := false, error := some "Registry contract not deployed" } }
        false
    ∧ (verifyById true (.error "connect ETIMEDOUT") "cred-unknown" true
        fun _ => .error "unreachable") =
      .ok { initResult "cred-unknown" with
            blockchain := { verified := false, error := some "connect ETIMEDOUT" } }
        false := by
  constructor <;> decide

/-- C2 amended: with the registry configured, the handler returns the 404
`NotFound` response exactly when the chain lookup throws an error whose
message contains "Credential does not exist"; when the lookup throws any
other error, and when the registry is unconfigured, it instead returns a 200
success verdict whose `blockchain.verified` is false and whose validity
fields are all false. -/
theorem C2_notFound_only_on_existence_error (cid msg : String) (inc : Bool)
    (fetch : String → Except String String) (h : cid ≠ "") :
    (strContains msg "Credential does not exist" = true →
      verifyById true (.error msg) cid inc fetch =
        .notFound "Credential not found"
          { initResult cid with blockchain := { verified := false, error := some msg } })
    ∧ (strContains msg "Credential does not exist" = false →
      verifyById true (.error msg) cid inc fetch =
        .ok { initResult cid with blockchain := { verified := false, error := some msg } }
          false)
    ∧ verifyById false (.error msg) cid inc fetch =
        .ok { initResult cid with
              blockchain := { verified := false, error := some "Registry contract not deployed" } }
          false := by
  refine ⟨fun hm => ?_, fun hm => ?_, ?_⟩
  · simp [verifyById, if_neg h, hm, initResult]
  · simp [verifyById, if_neg h, hm, initResult]
  · simp [verifyById, if_neg h, initResult]

/-- C2 amended witness: both lookup-error shapes evaluated concretely. -/
theorem C2_notFound_only_on_existence_error_witness :
    (verifyById true (.error "execution reverted: Credential does not exist")
        "cred-1" true fun _ => .error "x") =
      .notFound "Credential not found"
        { initResult "cred-1" with
          blockchain := { verified := false,
                          error := some "execution reverted: Credential does not exist" } }
    ∧ (verifyById true (.error "connect ETIMEDOUT") "cred-1" true fun _ => .error "x") =
      .ok { initResult "cred-1" with
            blockchain := { verified := false, error := some "connect ETIMEDOUT" } }
        false :=
  ⟨(C2_notFound_only_on_existence_error "cred-1"
      "execution reverted: Credential does not exist" true _ (by decide)).1 (by decide),
   (C2_notFound_only_on_existence_error "cred-1" "connect ETIMEDOUT" true _
      (by decide)).2.1 (by decide)⟩

/-- C3: when the on-chain lookup succeeds and the content-store fetch
requested by `includeMetadata=true` fails, the response is still the 200
verdict (no abort), the blockchain sub-result and all blockchain-derived
fields — and hence `overallValid` — are exactly those of the successful-fetch
run, and only the `ipfs` sub-result differs: `verified` is false and `error`
carries the cause. -/
theorem C3_ipfs_failure_is_frame_effect (rec : ChainRecord) (cid m e : String)
    (h : cid ≠ "") (hh : rec.ipfsHash ≠ "") :
    verifyById true (.ok rec) cid true (fun _ => .error e) =
      .ok { blockchainOkResult cid rec with
            ipfs := { verified := false, metadata := none, error := some e } }
        (rec.isValid && !rec.isExpired && !rec.isRevoked)
    ∧ verifyById true (.ok rec) cid true (fun _ => .ok m) =
      .ok { blockchainOkResult cid rec with
            ipfs := { verified := true, metadata := some m, error := none } }
        (rec.isValid && !rec.isExpired && !rec.isRevoked) := by
  constructor <;> simp [verifyById, if_neg h, hh, blockchainOkResult]

/-- C3 witness: a concrete valid credential whose metadata fetch times out. -/
theorem C3_ipfs_failure_is_frame_effect_witness :
    (verifyById true
      (.ok { isValid := true, isExpired := false, isRevoked := false,
             issuer := "0xabc", recipient := "0xdef", credentialType := "Diploma",
             issuedAt := 1700000000, expiresAt := 0, ipfsHash := "QmX" })
      "cred-1" true fun _ => .error "IPFS request timeout") =
      .ok { blockchainOkResult "cred-1"
              { isValid := true, isExpired := false, isRevoked := false,
                issuer := "0xabc", recipient := "0xdef", credentialType := "Diploma",
                issuedAt := 1700000000, expiresAt := 0, ipfsHash := "QmX" } with
            ipfs := { verified := false, metadata := none, error := some "IPFS request timeout" } }
        (true && !false && !false) :=
  (C3_ipfs_failure_is_frame_effect _ "cred-1" "unused" "IPFS request timeout"
    (by decide) (by decide)).1

/-- C5 counterexample: a caller-supplied document with a truthy
`credentialId`, a configured registry, a passing proof verification, and no
on-chain record (the chain call throws "Credential does not exist").  The
claim says `overallValid` then equals the proof result alone (`true`), but
the handler builds a non-null `blockchainVerification` object whose
`isValid` is `undefined` (falsy), so `overallValid` is `false`. -/
theorem C5_counterexample :
    (verifyCredentialDoc true (some "cred-1") true
        (.error "Credential does not exist")).overallValid = false := by
  decide

/-- C5 amended: `overallValid = proofValid AND (blockchainVerification is
null OR blockchainVerification.isValid)`, where the cross-check object is
null only when the document carries no truthy `credentialId` or the registry
is unconfigured (then `overallValid` is the proof result alone); when the
chain call succeeds `overallValid = proofValid AND onChainValid`; when the
chain call throws — including for ids with no on-chain record —
`overallValid` is false regardless of the proof result. -/
theorem C5_overallValid_document_route (p : Bool) (credId : Option String)
    (cfg : Bool) (chain : ChainVerifyOutcome) (v e r : Bool) (m : String) :
    (jsTruthyStr credId = false ∨ cfg = false →
      (verifyCredentialDoc p credId cfg chain).overallValid = p)
    ∧ (jsTruthyStr credId = true → cfg = true →
      (verifyCredentialDoc p credId cfg (.ok v e r)).overallValid = (p && v)
      ∧ (verifyCredentialDoc p credId cfg (.error m)).overallValid = false) := by
  refine ⟨fun hn => ?_, fun ht hc => ?_⟩
  · rcases hn with hn | hn <;> simp [verifyCredentialDoc, hn]
  · subst hc
    constructor <;> simp [verifyCredentialDoc, ht]

/-- C5 amended witness: all three branches evaluated at concrete inputs. -/
theorem C5_overallValid_document_route_witness :
    (verifyCredentialDoc true none true (.ok false false false)).overallValid = true
    ∧ (verifyCredentialDoc true (some "cred-1") true (.ok true false false)).overallValid =
        (true && true)
    ∧ (verifyCredentialDoc true (some "cred-1") true (.error "boom")).overallValid = false :=
  ⟨(C5_overallValid_document_route true none true (.ok false false false)
      false false false "m").1 (Or.inl (by decide)),
   ((C5_overallValid_document_route true (some "cred-1") true (.ok true false false)
      true false false "boom").2 (by decide) rfl).1,
   ((C5_overallValid_document_route true (some "cred-1") true (.error "boom")
      true false false "boom").2 (by decide) rfl).2⟩

/-- C4: when validation passes and DID creation, VC signing and both
content-store writes succeed, but the attempted blockchain registration
throws, the handler still returns the 201 receipt (not an exception), the
receipt's `blockchain` field is null, and the receipt's `vcCid` resolves in
the content store to the uploaded document embedding the signed VC. -/
theorem C4_chain_failure_still_issues (env : Issue.IssueEnv)
    (req : Issue.IssueRequest) (st : Issue.WorldState)
    (hv : (jsTruthyStr req.studentName && jsTruthyStr req.studentEmail &&
           jsTruthyStr req.courseName && jsTruthyStr req.credentialType) = true)
    (hdid : ∀ e, (env.didOf e).isSome)
    (hput : ∀ d, (env.putCid d).isSome)
    (hvc : ∀ c, (env.vcOf c).isSome)
    (hready : env.chainReady = true) (hfail : env.chainWrite = none) :
    ∃ r st2, Issue.issue env req st = (.created r, st2)
      ∧ r.blockchain = none
      ∧ ∃ m, Issue.getDoc st2 r.vcCid = some (.metaWithVc m r.verifiableCredential) := by
  obtain ⟨did, hdid2⟩ := Option.isSome_iff_exists.mp (hdid (req.studentEmail.getD ""))
  unfold Issue.issue
  rw [hv]
  simp only [Bool.not_true, Bool.false_eq_true, if_false, hdid2]
  set cdata : Issue.CredentialData :=
    { credentialId := "cred-" ++ env.uuid
      issuerDID := Issue.institutionDid
      subjectDID := did
      credentialType := req.credentialType
      studentName := req.studentName
      studentEmail := req.studentEmail
      courseName := req.courseName
      institutionName := Issue.institutionName
      graduationDate := req.graduationDate
      grade := req.grade
      expirationDate := req.expirationDate
      evidence := req.evidence.getD [] } with hcdata
  obtain ⟨cid1, hput1⟩ :=
    Option.isSome_iff_exists.mp (hput (.meta (Issue.createCredentialMetadata cdata)))
  obtain ⟨vc, hvc1⟩ := Option.isSome_iff_exists.mp (hvc cdata)
  obtain ⟨cid2, hput2⟩ :=
    Option.isSome_iff_exists.mp
      (hput (.metaWithVc (Issue.createCredentialMetadata cdata) vc))
  simp only [hput1, hvc1, hput2, hready, hfail]
  refine ⟨_, _, rfl, rfl, Issue.createCredentialMetadata cdata, ?_⟩
  simp [Issue.getDoc]

/-- C4 witness: a concrete issuance run whose chain registration throws. -/
theorem C4_chain_failure_still_issues_witness :
    ∃ r st2,
      Issue.issue
        { uuid := "u1", didOf := fun _ => some "did:key:stu",
          putCid := fun d => match d with | .meta _ => some "QmMeta" | .metaWithVc _ _ => some "QmVc",
          vcOf := fun _ => some { jwt := "header.payload.sig" },
          chainReady := true, chainWrite := none }
        { studentName := some "Alice", studentEmail := some "alice@example.com",
          courseName := some "Computer Science", credentialType := some "Bachelor Degree",
          graduationDate := none, grade := none, expirationDate := none,
          studentWallet := none, evidence := none }
        { dids := [], ipfs := [], chainWrites := [] } = (.created r, st2)
      ∧ r.blockchain = none
      ∧ ∃ m, Issue.getDoc st2 r.vcCid = some (.metaWithVc m r.verifiableCredential) :=
  C4_chain_failure_still_issues _ _ _ (by decide)
    (fun _ => rfl) (fun d => by cases d <;> rfl) (fun _ => rfl) rfl rfl

/-- C6 evaluation at the failing input: `batchIssue` on
`[A_valid, B_missing_fields, C_valid]` does place each entry in exactly one
collection and `results.length + errors.length = 3`, but the loop body never
validates an entry, so B lands in `results` with `status: 'success'` and
`errors` is empty — not the 2/1 split the claim requires. -/
theorem C6_batch_issue_never_reports_errors :
    Issue.batchIssue (fun i => toString i)
      [{ name := some "Alice", email := some "alice@example.com",
         courseName := some "Computer Science", credentialType := some "Bachelor Degree" },
       { name := some "Bob", email := some "bob@example.com",
         courseName := none, credentialType := none },
       { name := some "Carol", email := some "carol@example.com",
         courseName := some "Mathematics", credentialType := some "Diploma" }] =
    .ok 3 3 0
      [{ studentEmail := some "alice@example.com", credentialId := "cred-0", status := "success" },
       { studentEmail := some "bob@example.com", credentialId := "cred-1", status := "success" },
       { studentEmail := some "carol@example.com", credentialId := "cred-2", status := "success" }]
      [] := by
  decide

/-- C7: an issuance request missing the subject name, the subject email, or
the credential type is rejected with the 400 validation response, and the
collaborator state is returned exactly unchanged: no DID is created, nothing
is written to the content store, and nothing is registered on chain. -/
theorem C7_validation_aborts_before_side_effects (env : Issue.IssueEnv)
    (req : Issue.IssueRequest) (st : Issue.WorldState)
    (h : jsTruthyStr req.studentName = false ∨ jsTruthyStr req.studentEmail = false ∨
         jsTruthyStr req.credentialType = false) :
    Issue.issue env req st =
      (.badRequest "Missing required fields: studentName, studentEmail, courseName, credentialType",
       st) := by
  unfold Issue.issue
  rcases h with h | h | h <;> simp [h]

/-- C7 witness: a concrete request with no student email is rejected and the
pre-existing collaborator state survives untouched. -/
theorem C7_validation_aborts_before_side_effects_witness :
    Issue.issue
      { uuid := "u1", didOf := fun _ => some "did:key:stu",
        putCid := fun _ => some "QmMeta", vcOf := fun _ => some { jwt := "j" },
        chainReady := true, chainWrite := none }
      { studentName := some "Alice", studentEmail := none,
        courseName := some "Computer Science", credentialType := some "Bachelor Degree",
        graduationDate := none, grade := none, expirationDate := none,
        studentWallet := none, evidence := none }
      { dids := ["did:key:old"], ipfs := [("QmOld", .meta
          (Issue.createCredentialMetadata
            { credentialId := "cred-old", issuerDID := "d", subjectDID := "s",
              credentialType := none, studentName := none, studentEmail := none,
              courseName := none, institutionName := "i", graduationDate := none,
              grade := none, expirationDate := none, evidence := [] }))],
        chainWrites := ["cred-old"] } =
    (.badRequest "Missing required fields: studentName, studentEmail, courseName, credentialType",
     { dids := ["did:key:old"], ipfs := [("QmOld", .meta
          (Issue.createCredentialMetadata
            { credentialId := "cred-old", issuerDID := "d", subjectDID := "s",
              credentialType := none, studentName := none, studentEmail := none,
              courseName := none, institutionName := "i", graduationDate := none,
              grade := none, expirationDate := none, evidence := [] }))],
        chainWrites := ["cred-old"] }) :=
  C7_validation_aborts_before_side_effects _ _ _ (Or.inr (Or.inl rfl))

/-- The streaming loop of `getFile` characterised: starting from an
accumulated size within the cap, it fails exactly when the whole content
overflows the cap, and otherwise returns the full concatenation (chunk sizes
accumulate monotonically, so the final cumulative check subsumes all earlier
ones). -/
theorem readChunks_spec (ms : Nat) :
    ∀ (chunks : List (List Nat)) (acc : Nat), acc ≤ ms →
      Ipfs.readChunks ms acc chunks =
        if ms < acc + chunks.flatten.length then none else some chunks.flatten
  | [], acc, hacc => by
    simp [Ipfs.readChunks, Nat.not_lt.mpr hacc]
  | c :: cs, acc, hacc => by
    simp only [Ipfs.readChunks, List.flatten_cons]
    by_cases hov : acc + c.length > ms
    · rw [if_pos hov, if_pos]
      calc ms < acc + c.length := hov
        _ ≤ acc + (c ++ cs.flatten).length := by
            simp [List.length_append, Nat.add_le_add_iff_left]
    · rw [if_neg hov, readChunks_spec ms cs (acc + c.length) (Nat.not_lt.mp (by simpa using hov))]
      by_cases hov2 : ms < acc + c.length + cs.flatten.length
      · rw [if_pos hov2, if_pos (by simpa [List.length_append, Nat.add_assoc] using hov2)]
        rfl
      · rw [if_neg hov2, if_neg (by simpa [List.length_append, Nat.add_assoc] using hov2)]
        rfl

/-- `getFile` on retrievable content, characterised: the whole buffer when
the content fits the effective cap, a too-large failure carrying no data
otherwise. -/
theorem getFile_spec (st : Ipfs.Store) (cid : String) (chunks : List (List Nat))
    (options : Ipfs.GetOptions) (h : cid ≠ "") (hcat : Ipfs.cat st cid = some chunks) :
    Ipfs.getFile true st cid options =
      (if jsOrNat options.maxSize Ipfs.defaultMaxSize < chunks.flatten.length
       then .tooLarge (jsOrNat options.maxSize Ipfs.defaultMaxSize)
       else .ok chunks.flatten) := by
  simp only [Ipfs.getFile, Bool.not_true, Bool.false_eq_true, if_false, hcat]
  rw [if_neg h, readChunks_spec _ _ 0 (Nat.zero_le _), Nat.zero_add]
  by_cases hov : jsOrNat options.maxSize Ipfs.defaultMaxSize < chunks.flatten.length
  · rw [if_pos hov, if_pos hov]
  · rw [if_neg hov, if_neg hov]

/-- C9 counterexample: the claim quantifies over every content-store read,
but `getCredentialMetadata` — the read path used by the verification and
credential routes — streams with no size accounting and no timeout option:
on stored content one byte past the 50MB default cap it succeeds and hands
the parsed oversize payload to the caller (first conjunct), while the capped
`getFile` path rejects the very same content (second conjunct); and the
options object `getCredentialMetadata` passes to `client.cat` contains no
timeout at all (third conjunct). -/
theorem C9_counterexample :
    Ipfs.getCredentialMetadata true
      { entries := [("QmBig", [List.replicate (Ipfs.defaultMaxSize + 1) 0])] }
      (fun _ => some "parsed-oversize-doc") "QmBig" = .ok "parsed-oversize-doc"
    ∧ Ipfs.getFile true
      { entries := [("QmBig", [List.replicate (Ipfs.defaultMaxSize + 1) 0])] }
      "QmBig" { timeout := none, maxSize := none } = .tooLarge Ipfs.defaultMaxSize
    ∧ Ipfs.getCredentialMetadataTimeout = none := by
  refine ⟨rfl, ?_, rfl⟩
  have hlen : ([List.replicate (Ipfs.defaultMaxSize + 1) 0] : List (List Nat)).flatten.length =
      Ipfs.defaultMaxSize + 1 := by
    rw [List.flatten_cons, List.flatten_nil, List.append_nil, List.length_replicate]
  rw [getFile_spec { entries := [("QmBig", [List.replicate (Ipfs.defaultMaxSize + 1) 0])] }
        "QmBig" [List.replicate (Ipfs.defaultMaxSize + 1) 0]
        { timeout := none, maxSize := none } (by decide) rfl, hlen]
  rw [show jsOrNat none Ipfs.defaultMaxSize = Ipfs.defaultMaxSize from rfl]
  rw [if_pos (Nat.lt_succ_self _)]

/-- C9 amended: reads performed through `getFile` do enforce the claim's
guards — the options handed to `client.cat` always carry a positive timeout,
30000 ms when the caller passes none, and the size cap (50MB when the caller
passes none) is checked incrementally so that oversize content yields a
too-large failure carrying no data while content within the cap is returned
whole, never partially.  `getCredentialMetadata`, however, streams with no
timeout and no size cap (see the counterexample), so the guard does not cover
every content-store read. -/
theorem C9_getFile_enforces_timeout_and_cap (st : Ipfs.Store) (cid : String)
    (chunks : List (List Nat)) (options : Ipfs.GetOptions)
    (h : cid ≠ "") (hcat : Ipfs.cat st cid = some chunks) :
    Ipfs.getFile true st cid options =
      (if jsOrNat options.maxSize Ipfs.defaultMaxSize < chunks.flatten.length
       then .tooLarge (jsOrNat options.maxSize Ipfs.defaultMaxSize)
       else .ok chunks.flatten)
    ∧ (options.timeout = none → Ipfs.getFileTimeout options = 30000)
    ∧ 0 < Ipfs.getFileTimeout options := by
  refine ⟨getFile_spec st cid chunks options h hcat,
    fun ht => by simp [Ipfs.getFileTimeout, jsOrNat, ht], ?_⟩
  · unfold Ipfs.getFileTimeout jsOrNat
    cases ho : options.timeout with
    | none => decide
    | some n =>
      by_cases hn : n = 0
      · simp [hn]
      · simp [hn, Nat.pos_of_ne_zero hn]

/-- C9 amended witness: a three-byte file read through `getFile` with default
options comes back whole. -/
theorem C9_getFile_enforces_timeout_and_cap_witness :
    Ipfs.getFile true { entries := [("Qm1", [[1, 2], [3]])] } "Qm1"
        { timeout := none, maxSize := none } =
      (if jsOrNat none Ipfs.defaultMaxSize < ([[1, 2], [3]] : List (List Nat)).flatten.length
       then .tooLarge (jsOrNat none Ipfs.defaultMaxSize)
       else .ok ([[1, 2], [3]] : List (List Nat)).flatten)
    ∧ ((none : Option Nat) = none →
        Ipfs.getFileTimeout { timeout := none, maxSize := none } = 30000)
    ∧ 0 < Ipfs.getFileTimeout { timeout := none, maxSize := none } :=
  C9_getFile_enforces_timeout_and_cap { entries := [("Qm1", [[1, 2], [3]])] } "Qm1"
    [[1, 2], [3]] { timeout := none, maxSize := none } (by decide) rfl

/-- C10: `fileExists` reads through `getFile` with `maxSize: 1`, so for
existing content it returns true exactly when the content is at most one byte
— in particular it returns false on every existing content larger than one
byte — and it returns false for content the client cannot retrieve at all. -/
theorem C10_fileExists_true_only_up_to_one_byte (st : Ipfs.Store) (cid : String)
    (chunks : List (List Nat)) (h : cid ≠ "") (hcat : Ipfs.cat st cid = some chunks) :
    (1 < chunks.flatten.length → Ipfs.fileExists true st cid = false)
    ∧ (Ipfs.fileExists true st cid = true ↔ chunks.flatten.length ≤ 1)
    ∧ ∀ cid2, cid2 ≠ "" → Ipfs.cat st cid2 = none → Ipfs.fileExists true st cid2 = false := by
  have key : ∀ cid3 chunks3, cid3 ≠ "" → Ipfs.cat st cid3 = some chunks3 →
      Ipfs.fileExists true st cid3 =
        if (1 : Nat) < chunks3.flatten.length then false else true := by
    intro cid3 chunks3 h3 hcat3
    unfold Ipfs.fileExists
    rw [getFile_spec st cid3 chunks3 _ h3 hcat3]
    rw [show jsOrNat (some 1) Ipfs.defaultMaxSize = 1 from rfl]
    by_cases hov : (1 : Nat) < chunks3.flatten.length
    · rw [if_pos hov, if_pos hov]
    · rw [if_neg hov, if_neg hov]
  refine ⟨fun hbig => ?_, ?_, fun cid2 h2 hnone => ?_⟩
  · rw [key cid chunks h hcat, if_pos hbig]
  · rw [key cid chunks h hcat]
    by_cases hov : (1 : Nat) < chunks.flatten.length
    · rw [if_pos hov]
      constructor
      · intro hfalse
        exact absurd hfalse (by decide)
      · intro hle
        omega
    · rw [if_neg hov]
      constructor
      · intro _
        omega
      · intro _
        rfl
  · unfold Ipfs.fileExists
    simp only [Ipfs.getFile, Bool.not_true, Bool.false_eq_true, if_false, hnone]
    rw [if_neg h2]

/-- C10 witness: two-byte content exists but `fileExists` denies it; one-byte
content is acknowledged; an unknown CID is denied. -/
theorem C10_fileExists_true_only_up_to_one_byte_witness :
    (1 < ([[7, 8]] : List (List Nat)).flatten.length →
      Ipfs.fileExists true { entries := [("Qm2", [[7, 8]]), ("Qm1", [[9]])] } "Qm2" = false)
    ∧ (Ipfs.fileExists true { entries := [("Qm2", [[7, 8]]), ("Qm1", [[9]])] } "Qm2" = true ↔
        ([[7, 8]] : List (List Nat)).flatten.length ≤ 1)
    ∧ ∀ cid2, cid2 ≠ "" →
        Ipfs.cat { entries := [("Qm2", [[7, 8]]), ("Qm1", [[9]])] } cid2 = none →
        Ipfs.fileExists true { entries := [("Qm2", [[7, 8]]), ("Qm1", [[9]])] } cid2 = false :=
  C10_fileExists_true_only_up_to_one_byte
    { entries := [("Qm2", [[7, 8]]), ("Qm1", [[9]])] } "Qm2" [[7, 8]] (by decide) rfl

/-- Lookup through the revocation write: the targeted key gets its `revoked`
flag set and the reason recorded; every other key reads unchanged. -/
theorem alookup_markRevoked (k vcId reason : String)
    (l : List (String × Registry.Credential)) :
    Registry.alookup k (Registry.markRevoked vcId reason l) =
      if k = vcId then
        (Registry.alookup k l).map fun cr => { cr with revoked := true, revokedReason := reason }
      else Registry.alookup k l := by
  induction l with
  | nil =>
    by_cases h : k = vcId <;> simp [Registry.markRevoked, Registry.alookup, h]
  | cons p rest ih =>
    obtain ⟨k2, v⟩ := p
    by_cases h1 : k2 = vcId
    · subst h1
      by_cases h2 : k = k2
      · subst h2
        simp [Registry.markRevoked, Registry.alookup]
      · simp [Registry.markRevoked, Registry.alookup, h2, ih]
    · by_cases h2 : k = k2
      · subst h2
        simp [Registry.markRevoked, Registry.alookup, h1]
      · simp [Registry.markRevoked, Registry.alookup, h1, h2, ih]

/-- Lookup past a fresh mapping insert. -/
theorem alookup_cons_ne {α : Type} (k k2 : String) (v : α) (l : List (String × α))
    (h : k ≠ k2) : Registry.alookup k ((k2, v) :: l) = Registry.alookup k l := by
  simp only [Registry.alookup]
  rw [if_neg h]

/-- Effect of a single transaction on one existing credential entry: either
the entry is returned untouched, or the transaction was a successful
`revokeCredential` of exactly that id, which flips `revoked` from false to
true and records the reason. -/
theorem exec_cred_lookup (s : Registry.State) (op : Registry.Op) (vcId : String)
    (c : Registry.Credential) (hc : Registry.alookup vcId s.credentials = some c) :
    Registry.alookup vcId (Registry.exec s op).credentials = some c
    ∨ ∃ sender reason, op = .revokeCredential sender vcId reason ∧ c.revoked = false ∧
        Registry.alookup vcId (Registry.exec s op).credentials =
          some { c with revoked := true, revokedReason := reason } := by
  cases op with
  | registerInstitution sender name did now =>
    left
    have h2 : (Registry.exec s (.registerInstitution sender name did now)).credentials =
        s.credentials := by
      simp only [Registry.exec, Registry.step]
      split_ifs <;> rfl
    rw [h2]
    exact hc
  | verifyInstitution sender inst verified =>
    left
    have h2 : (Registry.exec s (.verifyInstitution sender inst verified)).credentials =
        s.credentials := by
      simp only [Registry.exec, Registry.step]
      split_ifs <;> rfl
    rw [h2]
    exact hc
  | deactivateInstitution sender inst =>
    left
    have h2 : (Registry.exec s (.deactivateInstitution sender inst)).credentials =
        s.credentials := by
      simp only [Registry.exec, Registry.step]
      split_ifs <;> rfl
    rw [h2]
    exact hc
  | pause sender =>
    left
    have h2 : (Registry.exec s (.pause sender)).credentials = s.credentials := by
      simp only [Registry.exec, Registry.step]
      split_ifs <;> rfl
    rw [h2]
    exact hc
  | unpause sender =>
    left
    have h2 : (Registry.exec s (.unpause sender)).credentials = s.credentials := by
      simp only [Registry.exec, Registry.step]
      split_ifs <;> rfl
    rw [h2]
    exact hc
  | issueCredential sender vcId2 subject ipfsHash ctype expiresAt now =>
    left
    simp only [Registry.exec, Registry.step]
    by_cases h1 : sender ∉ s.issuerRole
    · rw [if_pos h1]
      exact hc
    · rw [if_neg h1]
      by_cases h2 : s.paused = true
      · rw [if_pos h2]
        exact hc
      · rw [if_neg h2]
        by_cases h3 : vcId2 = ""
        · rw [if_pos h3]
          exact hc
        · rw [if_neg h3]
          by_cases h4 : ipfsHash = ""
          · rw [if_pos h4]
            exact hc
          · rw [if_neg h4]
            by_cases h5 : ctype = ""
            · rw [if_pos h5]
              exact hc
            · rw [if_neg h5]
              by_cases h6 : (Registry.alookup vcId2 s.credentials).isSome = true
              · rw [if_pos h6]
                exact hc
              · rw [if_neg h6]
                by_cases h7 : (!(Registry.instOf s sender).verified) = true
                · rw [if_pos h7]
                  exact hc
                · rw [if_neg h7]
                  by_cases h8 : (!(Registry.instOf s sender).active) = true
                  · rw [if_pos h8]
                    exact hc
                  · rw [if_neg h8]
                    by_cases h9 : expiresAt > 0 ∧ ¬ expiresAt > now
                    · rw [if_pos h9]
                      exact hc
                    · rw [if_neg h9]
                      have hne : vcId ≠ vcId2 := by
                        intro he
                        rw [← he, hc] at h6
                        exact h6 rfl
                      exact (alookup_cons_ne vcId vcId2 _ s.credentials hne).trans hc
  | revokeCredential sender vcId2 reason =>
    by_cases he : vcId2 = vcId
    · subst he
      simp only [Registry.exec, Registry.step, hc, Option.isSome_some, Bool.not_true,
        Bool.false_eq_true, if_false, Option.getD_some]
      by_cases hp : s.paused = true
      · left
        rw [if_pos hp]
        exact hc
      · rw [if_neg hp]
        by_cases h1 : reason = ""
        · left
          rw [if_pos h1]
          exact hc
        · rw [if_neg h1]
          by_cases h2 : c.issuer ≠ sender
          · left
            rw [if_pos h2]
            exact hc
          · rw [if_neg h2]
            by_cases h3 : c.revoked = true
            · left
              rw [if_pos h3]
              exact hc
            · right
              refine ⟨sender, reason, rfl, by simpa using h3, ?_⟩
              rw [if_neg h3]
              show Registry.alookup vcId2 (Registry.markRevoked vcId2 reason s.credentials) =
                some { c with revoked := true, revokedReason := reason }
              rw [alookup_markRevoked, if_pos rfl, hc]
              rfl
    · left
      have hne : vcId ≠ vcId2 := fun hq => he hq.symm
      simp only [Registry.exec, Registry.step]
      by_cases hp : s.paused = true
      · rw [if_pos hp]
        exact hc
      · rw [if_neg hp]
        by_cases hex : (!(Registry.alookup vcId2 s.credentials).isSome) = true
        · rw [if_pos hex]
          exact hc
        · rw [if_neg hex]
          by_cases h1 : reason = ""
          · rw [if_pos h1]
            exact hc
          · rw [if_neg h1]
            by_cases h2 :
                ((Registry.alookup vcId2 s.credentials).getD Registry.emptyCredential).issuer ≠
                  sender
            · rw [if_pos h2]
              exact hc
            · rw [if_neg h2]
              by_cases h3 :
                  ((Registry.alookup vcId2 s.credentials).getD
                    Registry.emptyCredential).revoked = true
              · rw [if_pos h3]
                exact hc
              · rw [if_neg h3]
                show Registry.alookup vcId (Registry.markRevoked vcId2 reason s.credentials) =
                  some c
                rw [alookup_markRevoked, if_neg hne]
                exact hc

/-- Once a looked-up credential is revoked, it stays revoked (and present)
under any sequence of transactions. -/
theorem run_preserves_revoked :
    ∀ (ops : List Registry.Op) (s : Registry.State) (vcId : String)
      (c : Registry.Credential),
      Registry.alookup vcId s.credentials = some c → c.revoked = true →
      ∃ c2, Registry.alookup vcId (Registry.run s ops).credentials = some c2 ∧
        c2.revoked = true
  | [], _, _, c, hc, hrev => ⟨c, hc, hrev⟩
  | op :: ops, s, vcId, c, hc, hrev => by
    rcases exec_cred_lookup s op vcId c hc with h | ⟨_, _, _, hfalse, _⟩
    · exact run_preserves_revoked ops (Registry.exec s op) vcId c h hrev
    · rw [hrev] at hfalse
      cases hfalse

/-- C8: revocation is permanent and exclusive.  For any reachable registry
state holding a credential: (1) if its `revoked` flag is true, it remains
present with `revoked = true` after any sequence of further transactions;
(2) while it is revoked, every further `revokeCredential` call on it reverts;
(3) any transaction that is not a `revokeCredential` targeting it leaves its
entry — in particular its `revoked` flag and its `revokedReason` — exactly
unchanged, so the revocation write is the only writer of both fields. -/
theorem C8_revoked_flag_is_monotone (s : Registry.State) (ops : List Registry.Op)
    (op : Registry.Op) (vcId : String) (c : Registry.Credential)
    (hc : Registry.alookup vcId s.credentials = some c) :
    (c.revoked = true →
      ∃ c2, Registry.alookup vcId (Registry.run s ops).credentials = some c2 ∧
        c2.revoked = true)
    ∧ (c.revoked = true → ∀ sender reason,
        ∃ msg, Registry.step s (.revokeCredential sender vcId reason) = .error msg)
    ∧ (Registry.isRevokeOf op vcId = false →
        Registry.alookup vcId (Registry.exec s op).credentials = some c) := by
  refine ⟨fun hrev => run_preserves_revoked ops s vcId c hc hrev,
    fun hrev sender reason => ?_, fun hnr => ?_⟩
  · simp only [Registry.step, hc, Option.isSome_some, Bool.not_true,
      Bool.false_eq_true, if_false, Option.getD_some]
    by_cases hp : s.paused = true
    · rw [if_pos hp]
      exact ⟨_, rfl⟩
    · rw [if_neg hp]
      by_cases h1 : reason = ""
      · rw [if_pos h1]
        exact ⟨_, rfl⟩
      · rw [if_neg h1]
        by_cases h2 : c.issuer ≠ sender
        · rw [if_pos h2]
          exact ⟨_, rfl⟩
        · rw [if_neg h2, if_pos hrev]
          exact ⟨_, rfl⟩
  · rcases exec_cred_lookup s op vcId c hc with h | ⟨sender, reason, heq, _, _⟩
    · exact h
    · subst heq
      simp [Registry.isRevokeOf] at hnr

/-- C8 witness: a registry holding one revoked credential, pushed through a
pause and an issuance attempt; a repeated revocation reverts; an unrelated
registration leaves the revoked entry untouched. -/
theorem C8_revoked_flag_is_monotone_witness :
    (∃ c2, Registry.alookup "vc1"
        (Registry.run
          { credentials := [("vc1",
              { issuer := 5, subject := 9, ipfsHash := "QmV", issuedAt := 100,
                expiresAt := 0, revoked := true, revokedReason := "data entry error",
                credentialType := "Diploma" })],
            institutions := [(5, { name := "Uni", did := "did:u", verified := true,
                                   active := true, registeredAt := 50 })],
            issuerCredentials := [(5, ["vc1"])], subjectCredentials := [(9, ["vc1"])],
            adminRole := [1], issuerRole := [5], paused := false,
            totalCredentials := 1, totalInstitutions := 1, totalRevoked := 1 }
          [.pause 1, .issueCredential 5 "vc2" 9 "QmW" "Certificate" 0 200,
           .unpause 1]).credentials = some c2 ∧ c2.revoked = true)
    ∧ (∃ msg, Registry.step
        { credentials := [("vc1",
            { issuer := 5, subject := 9, ipfsHash := "QmV", issuedAt := 100,
              expiresAt := 0, revoked := true, revokedReason := "data entry error",
              credentialType := "Diploma" })],
          institutions := [(5, { name := "Uni", did := "did:u", verified := true,
                                 active := true, registeredAt := 50 })],
          issuerCredentials := [(5, ["vc1"])], subjectCredentials := [(9, ["vc1"])],
          adminRole := [1], issuerRole := [5], paused := false,
          totalCredentials := 1, totalInstitutions := 1, totalRevoked := 1 }
        (.revokeCredential 5 "vc1" "again") = .error msg)
    ∧ Registry.alookup "vc1"
        (Registry.exec
          { credentials := [("vc1",
              { issuer := 5, subject := 9, ipfsHash := "QmV", issuedAt := 100,
                expiresAt := 0, revoked := true, revokedReason := "data entry error",
                credentialType := "Diploma" })],
            institutions := [(5, { name := "Uni", did := "did:u", verified := true,
                                   active := true, registeredAt := 50 })],
            issuerCredentials := [(5, ["vc1"])], subjectCredentials := [(9, ["vc1"])],
            adminRole := [1], issuerRole := [5], paused := false,
            totalCredentials := 1, totalInstitutions := 1, totalRevoked := 1 }
          (.registerInstitution 7 "Uni2" "did:u2" 300)).credentials =
        some { issuer := 5, subject := 9, ipfsHash := "QmV", issuedAt := 100,
               expiresAt := 0, revoked := true, revokedReason := "data entry error",
               credentialType := "Diploma" } :=
  by
  refine ⟨?_, ?_, ?_⟩
  · exact (C8_revoked_flag_is_monotone
      { credentials := [("vc1",
          { issuer := 5, subject := 9, ipfsHash := "QmV", issuedAt := 100,
            expiresAt := 0, revoked := true, revokedReason := "data entry error",
            credentialType := "Diploma" })],
        institutions := [(5, { name := "Uni", did := "did:u", verified := true,
                               active := true, registeredAt := 50 })],
        issuerCredentials := [(5, ["vc1"])], subjectCredentials := [(9, ["vc1"])],
        adminRole := [1], issuerRole := [5], paused := false,
        totalCredentials := 1, totalInstitutions := 1, totalRevoked := 1 }
      [.pause 1, .issueCredential 5 "vc2" 9 "QmW" "Certificate" 0 200, .unpause 1]
      (.registerInstitution 7 "Uni2" "did:u2" 300) "vc1"
      { issuer := 5, subject := 9, ipfsHash := "QmV", issuedAt := 100,
        expiresAt := 0, revoked := true, revokedReason := "data entry error",
        credentialType := "Diploma" } rfl).1 rfl
  · exact (C8_revoked_flag_is_monotone
      { credentials := [("vc1",
          { issuer := 5, subject := 9, ipfsHash := "QmV", issuedAt := 100,
            expiresAt := 0, revoked := true, revokedReason := "data entry error",
            credentialType := "Diploma" })],
        institutions := [(5, { name := "Uni", did := "did:u", verified := true,
                               active := true, registeredAt := 50 })],
        issuerCredentials := [(5, ["vc1"])], subjectCredentials := [(9, ["vc1"])],
        adminRole := [1], issuerRole := [5], paused := false,
        totalCredentials := 1, totalInstitutions := 1, totalRevoked := 1 }
      [] (.registerInstitution 7 "Uni2" "did:u2" 300) "vc1"
      { issuer := 5, subject := 9, ipfsHash := "QmV", issuedAt := 100,
        expiresAt := 0, revoked := true, revokedReason := "data entry error",
        credentialType := "Diploma" } rfl).2.1 rfl 5 "again"
  · exact (C8_revoked_flag_is_monotone
      { credentials := [("vc1",
          { issuer := 5, subject := 9, ipfsHash := "QmV", issuedAt := 100,
            expiresAt := 0, revoked := true, revokedReason := "data entry error",
            credentialType := "Diploma" })],
        institutions := [(5, { name := "Uni", did := "did:u", verified := true,
                               active := true, registeredAt := 50 })],
        issuerCredentials := [(5, ["vc1"])], subjectCredentials := [(9, ["vc1"])],
        adminRole := [1], issuerRole := [5], paused := false,
        totalCredentials := 1, totalInstitutions := 1, totalRevoked := 1 }
      [] (.registerInstitution 7 "Uni2" "did:u2" 300) "vc1"
      { issuer := 5, subject := 9, ipfsHash := "QmV", issuedAt := 100,
        expiresAt := 0, revoked := true, revokedReason := "data entry error",
        credentialType := "Diploma" } rfl).2.2 (by decide)

end CredVerse
